import Mathlib

/-!
Verification of the aggregation and filtering pipeline of `src/app.py`
(a Streamlit dashboard over a retail-transactions CSV).

The pandas dataframe is embedded shallowly as a list of records.  Numeric
columns (`quantity`, `unitprice`, the derived `profit`) are modelled over
`ℚ`/`Int`, which computes the source's arithmetic expressions exactly;
timestamps are modelled as `Nat` in `YYYYMMDD` encoding (only their order
and calendar month are ever used).  Nullable columns (`description`,
`customerid`) are `Option`-valued: `none` is pandas `NaN`.
-/

/-- One retained row of the input file, after the Loader's
`dropna(subset=['invoicedate', 'quantity', 'unitprice'])` (src/app.py line 28):
`invoicedate`, `quantity` and `unitprice` are present, `description` and
`customerid` stay nullable. -/
structure Record where
  invoice : String
  stockcode : String
  description : Option String
  quantity : Int
  invoicedate : Nat
  unitprice : ℚ
  customerid : Option Nat
  country : String
deriving DecidableEq

/-- A record together with the derived `profit` column added by
`df['profit'] = df['quantity'] * df['unitprice'] * 0.2` (src/app.py line 29). -/
structure ERecord extends Record where
  profit : ℚ
deriving DecidableEq

/-- The Enricher: src/app.py line 29.  Adds the `profit` column and changes
nothing else. -/
def enrich (r : Record) : ERecord :=
  { r with profit := (r.quantity : ℚ) * r.unitprice * 0.2 }

/-! ### The Filter (src/app.py lines 97-101)

`filtered_df['description'].str.contains(search_text, case=False, na=False)`
performs a **regular-expression** search (`regex=True` is the pandas default)
with `re.IGNORECASE`, and treats a missing description as a non-match
(`na=False`).  We embed Python's regex search for patterns built from literal
characters and the metacharacter `.` (which matches any single character).
The embedding is faithful only on this literal-plus-dot fragment: the other
Python regex metacharacters (star, plus, question mark, parentheses, square
brackets, backslash, bar, caret, dollar, braces) are not modelled, so every
theorem below either instantiates the search text inside the fragment or
hypothesises that the text contains no metacharacter at all. -/

/-- One compiled pattern element: a literal character or the `.` metacharacter. -/
inductive PChar where
  | lit (c : Char)
  | dot
deriving DecidableEq

/-- Pattern compilation for the literal-plus-dot regex fragment: `.` is the
any-character metacharacter, every other character of the search text is a
literal.  A text containing another Python regex metacharacter (star, plus,
question mark, parentheses, square brackets, backslash, bar, caret, dollar,
braces) is outside the model — the program would treat it as regex syntax
(or raise, e.g. on an unbalanced parenthesis), while this function would
read it literally — so no theorem evaluates `parsePat` on such a text. -/
def parsePat (s : String) : List PChar :=
  s.data.map (fun c => if c = '.' then PChar.dot else PChar.lit c)

/-- Python's regex metacharacters (`re` special characters).  A search text
avoiding all of them is a literal pattern, for which the program's regex
search coincides with a case-insensitive substring test. -/
def regexMetachars : List Char :=
  ['.', '^', '$', '*', '+', '?', '\x7b', '\x7d', '[', ']', '\\', '|', '(', ')']

/-- Does the pattern match a prefix of the character list?  Literals compare
case-insensitively (`re.IGNORECASE`, via lower-casing both sides). -/
def pmatchHere : List PChar → List Char → Bool
  | [], _ => true
  | _ :: _, [] => false
  | PChar.lit c :: ps, x :: xs => (x.toLower = c.toLower) && pmatchHere ps xs
  | PChar.dot :: ps, _ :: xs => pmatchHere ps xs

/-- `re.search` semantics: the pattern may match starting at any position. -/
def psearch (ps : List PChar) : List Char → Bool
  | [] => pmatchHere ps []
  | x :: xs => pmatchHere ps (x :: xs) || psearch ps xs

/-- `Series.str.contains(pat, case=False, na=False)` on a nullable string:
`none` (NaN) never matches and never errors.  Faithful to the program only
for patterns in the literal-plus-dot fragment (see `parsePat`); the general
theorem about the Filter therefore restricts its search text to contain no
character of `regexMetachars`. -/
def strContainsCI (d : Option String) (pat : String) : Bool :=
  match d with
  | none => false
  | some s => psearch (parsePat pat) s.data

/-- The Filter, src/app.py lines 97-101: `if search_text:` applies the text
predicate only when the search text is non-empty (Python truthiness of a
string), `if selected_country != "All":` applies the country predicate only
when a concrete country is selected. -/
def filteredDf (rs : List ERecord) (searchText selectedCountry : String) :
    List ERecord :=
  let r1 := if searchText = "" then rs
            else rs.filter (fun r => strContainsCI r.description searchText)
  if selectedCountry = "All" then r1
  else r1.filter (fun r => r.country == selectedCountry)

/-! Spec-side text predicate, for comparison with the source's regex search.
Modelled from the spec's words: "a case-insensitive substring pattern over
`description` ... Matching on `description` must tolerate absent descriptions
(treated as non-matching, never an error)". -/

/-- Case-insensitive "the first list is a starting segment of the second". -/
def isPrefCI : List Char → List Char → Bool
  | [], _ => true
  | _ :: _, [] => false
  | c :: cs, x :: xs => (x.toLower = c.toLower) && isPrefCI cs xs

/-- Case-insensitive "the first list occurs as a contiguous sublist of the
second". -/
def subCI (pat : List Char) : List Char → Bool
  | [] => isPrefCI pat []
  | x :: xs => isPrefCI pat (x :: xs) || subCI pat xs

/-- Spec-side predicate: the search text occurs in the (nullable) description
as a case-insensitive substring; an absent description never matches. -/
def specSubstrCI (pat : String) (d : Option String) : Bool :=
  match d with
  | none => false
  | some s => subCI pat.data s.data

/-! ### The Aggregator (src/app.py lines 45-88 and 105-142)

`df.groupby(k)` sorts the group keys ascending (`sort=True` default) and
**drops rows whose key is null** (`dropna=True` default).
`Series.sort_values(ascending=False)` is embedded as a stable descending
sort (Mathlib's stable `insertionSort`), and `.head(n)` as `List.take n`. -/

/-- Stable ascending sort, for `groupby`'s sorted keys. -/
def sortAsc [LinearOrder k] (l : List k) : List k :=
  l.insertionSort (· ≤ ·)

/-- Descending sort on a series of (key, value) pairs:
`sort_values(ascending=False)`.  Pandas' default sort kind is `quicksort`,
which guarantees no particular order between tied values; a deterministic
embedding must pick one, and this one uses a stable sort.  No claim theorem
relies on the model's tie order: the proved properties (length bound,
non-increasing values) hold for any sort, and the C3 counterexample about
ties is confirmed against the program's traced behaviour on that input. -/
def sortDesc {k : Type} (l : List (k × ℚ)) : List (k × ℚ) :=
  l.insertionSort (fun a b => b.2 ≤ a.2)

/-- `df.groupby(key)[col].sum()` (also `.apply(lambda x: ...sum())`): one
entry per distinct non-null key, keys ascending, value summed over the rows
carrying that key.  Rows with a null key are dropped (`dropna=True`). -/
def groupSum {a k : Type} [DecidableEq k] [LinearOrder k]
    (rs : List a) (key : a → Option k) (val : a → ℚ) : List (k × ℚ) :=
  (sortAsc (rs.filterMap key).dedup).map
    (fun g => (g, ((rs.filter (fun r => decide (key r = some g))).map val).sum))

/-- `Series.value_counts()`: count of rows per distinct value, sorted
descending by count (counts are cast into `ℚ` to share the series model). -/
def valueCountsCountry (rs : List ERecord) : List (String × ℚ) :=
  sortDesc ((rs.map (fun r => r.country)).dedup.map
    (fun c => (c, ((rs.filter (fun r => r.country == c)).length : ℚ))))

/-- Top 5 selling products: src/app.py line 45. -/
def topSellingProducts (rs : List ERecord) : List (String × ℚ) :=
  (sortDesc (groupSum rs (fun r => r.description) (fun r => (r.quantity : ℚ)))).take 5

/-- Top 5 profitable products: src/app.py line 60. -/
def topProfitableProducts (rs : List ERecord) : List (String × ℚ) :=
  (sortDesc (groupSum rs (fun r => r.description) (fun r => r.profit))).take 5

/-- Top 3 countries by order volume: src/app.py line 75. -/
def topCountries (rs : List ERecord) : List (String × ℚ) :=
  (valueCountsCountry rs).take 3

/-- Net-loss customer count, src/app.py lines 86-87:
`(df.groupby('customerid')['profit'].sum() < 0).sum()`. -/
def numLossCustomers (rs : List ERecord) : Nat :=
  (groupSum rs (fun r => r.customerid) (fun r => r.profit)).countP
    (fun p => decide (p.2 < 0))

/-- Total sales KPI, src/app.py line 105:
`(filtered_df['quantity'] * filtered_df['unitprice']).sum()`. -/
def totalSales (rs : List ERecord) : ℚ :=
  (rs.map (fun r => (r.quantity : ℚ) * r.unitprice)).sum

/-- Total profit KPI, src/app.py line 106: `filtered_df['profit'].sum()`. -/
def totalProfit (rs : List ERecord) : ℚ :=
  (rs.map (fun r => r.profit)).sum

/-- Date range KPI, src/app.py lines 107-108: `(min, max)` of `invoicedate`;
on the empty set pandas yields `NaT`, embedded as `none`. -/
def dateRange (rs : List ERecord) : Option (Nat × Nat) :=
  match rs.map (fun r => r.invoicedate) with
  | [] => none
  | d :: ds => some (ds.foldl min d, ds.foldl max d)

/-- Sales over time, src/app.py line 125: sum of `quantity * unitprice`
grouped by exact invoice timestamp, chronological (groupby sorts keys). -/
def salesOverTime (rs : List ERecord) : List (Nat × ℚ) :=
  groupSum rs (fun r => some r.invoicedate) (fun r => (r.quantity : ℚ) * r.unitprice)

/-- The calendar month of a `YYYYMMDD`-encoded timestamp, as a linear month
index (year times 12 plus the zero-based month), so that consecutive
calendar months have consecutive indices. -/
def monthIdx (d : Nat) : Nat :=
  (d / 10000) * 12 + (d / 100 % 100 - 1)

/-- Monthly sales trend, src/app.py line 130 (`resample('M')`): one entry
per calendar month from the earliest to the latest month present,
chronological, including zero-valued entries for the empty months in
between (resample emits the full month range, unlike groupby); empty input
gives the empty series. -/
def monthlySales (rs : List ERecord) : List (Nat × ℚ) :=
  match rs.map (fun r => monthIdx r.invoicedate) with
  | [] => []
  | m :: ms =>
    let lo := ms.foldl min m
    let hi := ms.foldl max m
    (List.range (hi + 1 - lo)).map (fun i =>
      (lo + i, ((rs.filter (fun r => decide (monthIdx r.invoicedate = lo + i))).map
        (fun r => (r.quantity : ℚ) * r.unitprice)).sum))

/-- Top 10 customers by total spend, src/app.py lines 135-136. -/
def topCustomers (rs : List ERecord) : List (Nat × ℚ) :=
  (sortDesc (groupSum rs (fun r => r.customerid)
    (fun r => (r.quantity : ℚ) * r.unitprice))).take 10

/-- Orders distribution by country, src/app.py line 141: full `value_counts`. -/
def orderDist (rs : List ERecord) : List (String × ℚ) :=
  valueCountsCountry rs

/-- Sum of `quantity * unitprice` over plain (pre-enrichment) records,
used to relate the total-profit aggregate to the Enricher's margin. -/
def salesOfRecords (rs : List Record) : ℚ :=
  (rs.map (fun r => (r.quantity : ℚ) * r.unitprice)).sum

/-! ### CSV export and the Loader (src/app.py lines 17-28 and 116-117)

CSV contents are embedded at cell granularity: a cell records what kind of
text it holds (a plain string, an integer, a decimal, a timestamp, or the
empty text that pandas writes for `NaN` and reads back as `NaN`).  A
non-timestamp string does not parse as a date; a numeric cell fed to
`pd.to_datetime(..., errors='coerce')` is interpreted as an epoch offset
(pandas' behaviour on numeric input), so it yields a valid timestamp. -/

/-- One delimited-text cell of a CSV table. -/
inductive Cell where
  | s (v : String)
  | i (v : Int)
  | q (v : ℚ)
  | d (v : Nat)
  | empty
deriving DecidableEq

/-- `df.to_csv` rendering of a nullable string column: `NaN` becomes the
empty cell. -/
def cellOfOptStr : Option String → Cell
  | none => Cell.empty
  | some v => Cell.s v

/-- `df.to_csv` rendering of the nullable `customerid` column. -/
def cellOfOptNat : Option Nat → Cell
  | none => Cell.empty
  | some v => Cell.i v

/-- The header row written by `to_csv` for `filtered_df` (eight loaded
columns plus the derived `profit`). -/
def header9 : List Cell :=
  [Cell.s "invoice", Cell.s "stockcode", Cell.s "description",
   Cell.s "quantity", Cell.s "invoicedate", Cell.s "unitprice",
   Cell.s "customerid", Cell.s "country", Cell.s "profit"]

/-- One data row written by `to_csv(index=False)` for `filtered_df`: the
eight loaded columns plus `profit`, and no leading index cell. -/
def rowCells9 (r : ERecord) : List Cell :=
  [Cell.s r.invoice, Cell.s r.stockcode, cellOfOptStr r.description,
   Cell.i r.quantity, Cell.d r.invoicedate, Cell.q r.unitprice,
   cellOfOptNat r.customerid, Cell.s r.country, Cell.q r.profit]

/-- The exported `filtered_sales.csv` (src/app.py lines 116-117):
`filtered_df.to_csv(index=False)` — a header row followed by one row per
filtered record. -/
def exportCSV (rs : List ERecord) : List (List Cell) :=
  header9 :: rs.map rowCells9

/-- A row as the Loader's `read_csv(names=[...8 names...])` labels it:
eight cells assigned to the eight fixed column names. -/
structure RawRecord where
  invoice : Cell
  stockcode : Cell
  description : Cell
  quantity : Cell
  invoicedate : Cell
  unitprice : Cell
  customerid : Cell
  country : Cell
deriving DecidableEq

/-- `read_csv` index inference: when a row has one more cell than the eight
supplied names, the first cell becomes the (discarded) index. -/
def alignRow (row : List Cell) : List Cell :=
  if row.length = 9 then row.drop 1 else row

/-- Assign the eight column names to the cells of an aligned row. -/
def parseRaw : List Cell → Option RawRecord
  | [a, b, c, d, e, f, g, h] => some ⟨a, b, c, d, e, f, g, h⟩
  | _ => none

/-- `pd.to_datetime(col, errors='coerce')` on one cell: a timestamp cell
parses to itself; a numeric cell is interpreted as an epoch offset (a valid
timestamp, not `NaT`); a plain string or empty cell coerces to `NaT`. -/
def coerceDate : Cell → Option Nat
  | Cell.d t => some t
  | Cell.i n => some n.toNat
  | Cell.q v => some v.floor.toNat
  | _ => none

/-- The Loader on one data row (src/app.py lines 17-28): label the eight
columns (`names=...`, with index inference when a ninth column is present),
coerce `invoicedate` through `to_datetime(errors='coerce')`, and drop the
row when `invoicedate` coerced to `NaT` or `quantity`/`unitprice` is null
(the `dropna`). -/
def loadRow (row : List Cell) : Option RawRecord :=
  match parseRaw (alignRow row) with
  | none => none
  | some r =>
    match coerceDate r.invoicedate with
    | none => none
    | some t =>
      if r.quantity = Cell.empty ∨ r.unitprice = Cell.empty then none
      else some { r with invoicedate := Cell.d t }

/-- Load a whole table: skip the header row (`header=0`), load each
remaining row, keep the rows that survive `dropna`. -/
def loadTable (t : List (List Cell)) : List RawRecord :=
  (t.drop 1).filterMap loadRow

/-- The in-memory filtered record viewed as the eight loaded cells (the
derived `profit` ignored), for round-trip comparison with the Loader. -/
def toRaw (r : ERecord) : RawRecord :=
  ⟨Cell.s r.invoice, Cell.s r.stockcode, cellOfOptStr r.description,
   Cell.i r.quantity, Cell.d r.invoicedate, Cell.q r.unitprice,
   cellOfOptNat r.customerid, Cell.s r.country⟩

/-- Header row of an export restricted to the eight loaded columns (the
derived `profit` column dropped before exporting). -/
def header8 : List Cell := header9.take 8

/-- Data row of an export restricted to the eight loaded columns. -/
def rowCells8 (r : ERecord) : List Cell := (rowCells9 r).take 8

/-! ### The whole script run (src/app.py lines 15-151) -/

/-- Everything the script computes and hands to the Presenter, in source
order.  The "Top Insights" block (lines 36-88) runs on the full enriched
set `df`; the widgets at lines 93-95 come next, and everything from line 97
on runs on `filtered_df`. -/
structure DashboardOutput where
  rowCount : Nat
  colCount : Nat
  uniqueProducts : Nat
  uniqueCustomers : Nat
  topSelling : List (String × ℚ)
  topProfitable : List (String × ℚ)
  topCountriesView : List (String × ℚ)
  numLossView : Nat
  filtered : List ERecord
  totalSalesKPI : ℚ
  totalProfitKPI : ℚ
  dateRangeKPI : Option (Nat × Nat)
  exportFile : List (List Cell)
  preview : List ERecord
  salesOverTimeView : List (Nat × ℚ)
  monthlySalesView : List (Nat × ℚ)
  clvView : List (Nat × ℚ)
  orderDistView : List (String × ℚ)

/-- The body of the `try:` block, lines 17-146: enrich the loaded records,
compute the Top Insights over the full set, then filter and compute the
KPIs, export, preview, time series, top customers and country distribution
over the filtered set. -/
def runDashboard (rs : List Record) (searchText selectedCountry : String) :
    DashboardOutput :=
  let df := rs.map enrich
  let fdf := filteredDf df searchText selectedCountry
  { rowCount := df.length
    colCount := 9
    uniqueProducts := (df.filterMap (fun r => r.description)).dedup.length
    uniqueCustomers := (df.filterMap (fun r => r.customerid)).dedup.length
    topSelling := topSellingProducts df
    topProfitable := topProfitableProducts df
    topCountriesView := topCountries df
    numLossView := numLossCustomers df
    filtered := fdf
    totalSalesKPI := totalSales fdf
    totalProfitKPI := totalProfit fdf
    dateRangeKPI := dateRange fdf
    exportFile := exportCSV fdf
    preview := fdf.take 20
    salesOverTimeView := salesOverTime fdf
    monthlySalesView := monthlySales fdf
    clvView := topCustomers fdf
    orderDistView := orderDist fdf }

/-- What the script leaves on screen: the rendered dashboard, or a single
user-visible error message. -/
inductive AppOutcome where
  | fileNotFoundMsg
  | processErrorMsg (e : String)
  | rendered (out : DashboardOutput)

/-- The top level of src/app.py (lines 15-151): `if os.path.exists(...)`
guards the whole pipeline, and the `try/except Exception` around the body
turns any processing failure into one `st.error` message.  `proc` is the
outcome of the body (lines 17-146) when it is reached. -/
def runApp (fileExists : Bool) (proc : Except String DashboardOutput) :
    AppOutcome :=
  if fileExists then
    match proc with
    | Except.ok o => AppOutcome.rendered o
    | Except.error e => AppOutcome.processErrorMsg e
  else AppOutcome.fileNotFoundMsg

/-! Concrete records used by the counterexamples and witnesses below. -/

/-- A record whose description "AXB" is matched by the regex search text
"a.b" although "a.b" is not a substring of it. -/
def rC1x : Record := ⟨"i1", "s1", some "AXB", 5, 20110101, 1, some 1, "UK"⟩

/-- Tied product "A" (5 units), listed second in the input. -/
def rTieA : Record := ⟨"i1", "s1", some "A", 5, 20110101, 1, some 1, "UK"⟩

/-- Tied product "B" (5 units), listed first in the input. -/
def rTieB : Record := ⟨"i2", "s2", some "B", 5, 20110102, 1, some 2, "UK"⟩

/-- A record matching the search text "apple". -/
def rApp : Record := ⟨"i1", "s1", some "Apple", 1, 20110101, 1, some 1, "UK"⟩

/-- A record not matching the search text "apple". -/
def rBan : Record := ⟨"i2", "s2", some "Banana", 2, 20110102, 1, some 2, "UK"⟩

/-- A record with a null customer id and strictly negative profit. -/
def rNullC : Record := ⟨"i9", "s9", none, -5, 20110101, 1, none, "UK"⟩

/-- A record for the export/reload round trip. -/
def r9x : Record := ⟨"i1", "s1", some "d", 2, 20101201, 3, some 7, "UK"⟩

/-! ### Helper lemmas -/

theorem pmatchHere_lit (ps : List Char) (xs : List Char) :
    pmatchHere (ps.map PChar.lit) xs = isPrefCI ps xs := by
  induction ps generalizing xs with
  | nil => cases xs <;> rfl
  | cons c cs ih =>
    cases xs with
    | nil => rfl
    | cons x xs => simp [pmatchHere, isPrefCI, ih]

theorem psearch_lit (ps : List Char) (xs : List Char) :
    psearch (ps.map PChar.lit) xs = subCI ps xs := by
  induction xs with
  | nil => simp [psearch, subCI, pmatchHere_lit]
  | cons x xs ih => simp [psearch, subCI, pmatchHere_lit, ih]

theorem map_pchar_of_no_dot :
    ∀ l : List Char, '.' ∉ l →
      l.map (fun c => if c = '.' then PChar.dot else PChar.lit c) = l.map PChar.lit
  | [], _ => rfl
  | c :: cs, h => by
    simp only [List.mem_cons, not_or] at h
    simp only [List.map_cons]
    rw [if_neg (fun hc => h.1 hc.symm), map_pchar_of_no_dot cs h.2]

theorem parsePat_of_no_dot {s : String} (h : '.' ∉ s.data) :
    parsePat s = s.data.map PChar.lit :=
  map_pchar_of_no_dot s.data h

theorem strContainsCI_eq_spec {pat : String} (h : '.' ∉ pat.data)
    (d : Option String) : strContainsCI d pat = specSubstrCI pat d := by
  cases d with
  | none => rfl
  | some s => simp [strContainsCI, specSubstrCI, parsePat_of_no_dot h, psearch_lit]

theorem sortDesc_sorted {k : Type} (l : List (k × ℚ)) :
    List.Pairwise (fun a b => b.2 ≤ a.2) (sortDesc l) := by
  haveI : IsTotal (k × ℚ) (fun a b => b.2 ≤ a.2) := ⟨fun a b => le_total b.2 a.2⟩
  haveI : IsTrans (k × ℚ) (fun a b => b.2 ≤ a.2) :=
    ⟨fun a b c hab hbc => le_trans hbc hab⟩
  exact List.sorted_insertionSort _ l

theorem sortDescTake_spec {k : Type} (l : List (k × ℚ)) (n : Nat) :
    ((sortDesc l).take n).length ≤ n ∧
    List.Pairwise (fun a b => b.2 ≤ a.2) ((sortDesc l).take n) :=
  ⟨by rw [List.length_take]; exact min_le_left n _,
   (sortDesc_sorted l).sublist (List.take_sublist n _)⟩

theorem loadRow_rowCells8 (r : ERecord) : loadRow (rowCells8 r) = some (toRaw r) := rfl

theorem filterMap_filter_isSome {a k : Type} (key : a → Option k) :
    ∀ rs : List a,
      (rs.filter (fun r => (key r).isSome)).filterMap key = rs.filterMap key
  | [] => rfl
  | r :: rs => by
    cases hk : key r with
    | none =>
      simp [List.filter_cons, List.filterMap_cons, hk,
        filterMap_filter_isSome key rs]
    | some g =>
      simp [List.filter_cons, List.filterMap_cons, hk,
        filterMap_filter_isSome key rs]

theorem filter_eq_filter_isSome {a k : Type} [DecidableEq k] (key : a → Option k)
    (g : k) (rs : List a) :
    (rs.filter (fun r => (key r).isSome)).filter
        (fun r => decide (key r = some g)) =
      rs.filter (fun r => decide (key r = some g)) := by
  rw [List.filter_filter]
  exact List.filter_congr (fun r _ => by cases hk : key r <;> simp [hk])

theorem groupSum_dropNull {a k : Type} [DecidableEq k] [LinearOrder k]
    (key : a → Option k) (val : a → ℚ) (rs : List a) :
    groupSum (rs.filter (fun r => (key r).isSome)) key val = groupSum rs key val := by
  unfold groupSum
  rw [filterMap_filter_isSome]
  exact List.map_congr_left (fun g _ => by rw [filter_eq_filter_isSome])

/-! ### The claims -/

/-- C1, counterexample: the Filter does not implement a plain case-insensitive
substring test.  The search text "a.b" is a regex in which `.` matches any
character, so the record with description "AXB" is kept by the source's
filter although "a.b" is not a case-insensitive substring of "AXB". -/
theorem C1_counterexample :
    filteredDf [enrich rC1x] "a.b" "All" = [enrich rC1x] ∧
    specSubstrCI "a.b" (enrich rC1x).description = false :=
  ⟨rfl, rfl⟩

/-- C1, amended: for search texts containing none of Python's regex
metacharacters — on which the program's regex search is a literal match,
and which keep the text inside the model's faithful fragment — the Filter
returns exactly the records whose description contains the text as a
case-insensitive substring AND whose country equals the selection; empty
text and the sentinel "All" disable the respective predicate, absent
descriptions never match and never error, and the no-op filter (empty
text, "All") is the identity. -/
theorem C1_filter_amended (rs : List ERecord) (text ctry : String)
    (hm : ∀ c ∈ text.data, c ∉ regexMetachars) :
    filteredDf rs text ctry =
      rs.filter (fun r => ((text == "") || specSubstrCI text r.description) &&
        ((ctry == "All") || (r.country == ctry))) ∧
    filteredDf rs "" "All" = rs := by
  have h : '.' ∉ text.data := fun hc => hm '.' hc (by decide)
  refine ⟨?_, rfl⟩
  by_cases h1 : text = ""
  · subst h1
    by_cases h2 : ctry = "All"
    · subst h2
      simp [filteredDf]
    · have hc : (ctry == "All") = false := beq_eq_false_iff_ne.mpr h2
      simp [filteredDf, if_neg h2, hc]
  · have ht : (text == "") = false := beq_eq_false_iff_ne.mpr h1
    by_cases h2 : ctry = "All"
    · subst h2
      simp only [filteredDf, if_neg h1, if_pos rfl, ht, Bool.false_or,
        beq_self_eq_true, Bool.true_or, Bool.and_true]
      exact List.filter_congr (fun r _ => strContainsCI_eq_spec h r.description)
    · have hc : (ctry == "All") = false := beq_eq_false_iff_ne.mpr h2
      simp only [filteredDf, if_neg h1, if_neg h2, ht, hc, Bool.false_or]
      rw [List.filter_filter]
      exact List.filter_congr (fun r _ => by
        rw [strContainsCI_eq_spec h r.description, Bool.and_comm])

/-- C1, witness: the amended theorem applied to a concrete record, the
search text "ab" (free of every regex metacharacter) and country "FR". -/
theorem C1_filter_amended_witness :
    (filteredDf [enrich rC1x] "ab" "FR" =
      List.filter (fun r => (("ab" == "") || specSubstrCI "ab" r.description) &&
        (("FR" == "All") || (r.country == "FR"))) [enrich rC1x] ∧
     filteredDf [enrich rC1x] "" "All" = [enrich rC1x]) :=
  C1_filter_amended [enrich rC1x] "ab" "FR" (by decide)

/-- C2: the Enricher maps every record to itself plus
`profit = quantity * unitprice * 0.2`; it is total (one output per input,
no rows dropped), and the total-profit aggregate over its output equals
0.2 times the sum of `quantity * unitprice`. -/
theorem C2_enricher_profit :
    (∀ r : Record, (enrich r).toRecord = r ∧
      (enrich r).profit = (r.quantity : ℚ) * r.unitprice * 0.2) ∧
    (∀ rs : List Record, (rs.map enrich).length = rs.length ∧
      totalProfit (rs.map enrich) = 0.2 * salesOfRecords rs) := by
  refine ⟨fun r => ⟨rfl, rfl⟩, fun rs => ⟨by simp, ?_⟩⟩
  induction rs with
  | nil => simp [totalProfit, salesOfRecords]
  | cons r rs ih =>
    simp only [totalProfit, salesOfRecords, enrich, List.map_cons,
      List.sum_cons] at ih ⊢
    rw [ih]
    ring

/-- C3, counterexample: ties are not broken by original input row order.
Products "B" (first in the input) and "A" (second) both sum to 5 units, yet
the top-selling view lists "A" before "B": `groupby` pre-sorts the group
keys ascending, so ties follow key order, not input order. -/
theorem C3_counterexample :
    topSellingProducts [enrich rTieB, enrich rTieA] = [("A", 5), ("B", 5)] ∧
    topSellingProducts [enrich rTieB, enrich rTieA] ≠ [("B", 5), ("A", 5)] ∧
    (enrich rTieB).description = some "B" ∧
    (enrich rTieA).description = some "A" := by
  have h1 : ("A" : String) ≠ "B" := by decide
  have h2 : ("B" : String) ≠ "A" := by decide
  have key : topSellingProducts [enrich rTieB, enrich rTieA] = [("A", 5), ("B", 5)] := by
    norm_num [topSellingProducts, groupSum, sortAsc, sortDesc, enrich, rTieA, rTieB,
      List.filter_cons, List.filterMap_cons, List.dedup_cons_of_not_mem,
      List.dedup_nil, List.sum_cons, List.sum_nil, h1, h2]
  refine ⟨key, ?_, rfl, rfl⟩
  rw [key]
  intro hcon
  exact h1 (congrArg (fun l => (l.headI.1 : String)) hcon)

/-- C3, amended: every "Top N" view returns at most N entries sorted in
non-increasing order of its metric (top 5 selling by summed quantity, top 5
profitable by summed profit, top 3 countries by record count, top 10
customers by summed quantity times unit price).  The tie-breaking clause of
the original claim is dropped: ties do not follow the original input row
order (see the counterexample), and the program gives no tie-order
guarantee at all (an unstable default sort over the key-sorted groups). -/
theorem C3_topN_amended (rs : List ERecord) :
    ((topSellingProducts rs).length ≤ 5 ∧
      List.Pairwise (fun a b => b.2 ≤ a.2) (topSellingProducts rs)) ∧
    ((topProfitableProducts rs).length ≤ 5 ∧
      List.Pairwise (fun a b => b.2 ≤ a.2) (topProfitableProducts rs)) ∧
    ((topCountries rs).length ≤ 3 ∧
      List.Pairwise (fun a b => b.2 ≤ a.2) (topCountries rs)) ∧
    ((topCustomers rs).length ≤ 10 ∧
      List.Pairwise (fun a b => b.2 ≤ a.2) (topCustomers rs)) :=
  ⟨sortDescTake_spec _ 5, sortDescTake_spec _ 5,
   sortDescTake_spec _ 3, sortDescTake_spec _ 10⟩

/-- C4, counterexample: not every displayed aggregate is computed over the
filtered set.  With the search text "apple" active, the displayed
top-selling view still lists both products ("Banana" first) because the Top
Insights block runs on the full loaded set, before the filter. -/
theorem C4_counterexample :
    (runDashboard [rApp, rBan] "apple" "All").topSelling ≠
      topSellingProducts (filteredDf ([rApp, rBan].map enrich) "apple" "All") := by
  have h1 : ("Apple" : String) ≠ "Banana" := by decide
  have h2 : ("Banana" : String) ≠ "Apple" := by decide
  have hF : filteredDf ([rApp, rBan].map enrich) "apple" "All" = [enrich rApp] := rfl
  have hL : (runDashboard [rApp, rBan] "apple" "All").topSelling =
      [("Banana", 2), ("Apple", 1)] := by
    show topSellingProducts [enrich rApp, enrich rBan] = [("Banana", 2), ("Apple", 1)]
    norm_num [topSellingProducts, groupSum, sortAsc, sortDesc, enrich, rApp, rBan,
      List.filter_cons, List.filterMap_cons, List.dedup_cons_of_not_mem,
      List.dedup_nil, List.sum_cons, List.sum_nil, h1, h2]
  have hR : topSellingProducts [enrich rApp] = [("Apple", 1)] := by
    norm_num [topSellingProducts, groupSum, sortAsc, sortDesc, enrich, rApp,
      List.filter_cons, List.filterMap_cons, List.sum_cons, List.sum_nil]
  rw [hL, hF, hR]
  intro hcon
  exact absurd (congrArg List.length hcon) (by decide)

/-- C4, amended: the overview stats (row count, unique products, unique
customers) and the four Top Insights aggregates (top selling, top
profitable, top countries, net-loss count) are computed over the full
loaded set, while the KPIs (total sales, total profit, date range), the
export, the preview, both time series, the top-customers view and the
country distribution are computed over `Filter(full set, current
predicates)`. -/
theorem C4_aggregation_scope_amended (rs : List Record) (text ctry : String) :
    (runDashboard rs text ctry).rowCount = (rs.map enrich).length ∧
    (runDashboard rs text ctry).uniqueProducts =
      ((rs.map enrich).filterMap (fun r => r.description)).dedup.length ∧
    (runDashboard rs text ctry).uniqueCustomers =
      ((rs.map enrich).filterMap (fun r => r.customerid)).dedup.length ∧
    (runDashboard rs text ctry).topSelling = topSellingProducts (rs.map enrich) ∧
    (runDashboard rs text ctry).topProfitable =
      topProfitableProducts (rs.map enrich) ∧
    (runDashboard rs text ctry).topCountriesView = topCountries (rs.map enrich) ∧
    (runDashboard rs text ctry).numLossView = numLossCustomers (rs.map enrich) ∧
    (runDashboard rs text ctry).filtered = filteredDf (rs.map enrich) text ctry ∧
    (runDashboard rs text ctry).totalSalesKPI =
      totalSales (filteredDf (rs.map enrich) text ctry) ∧
    (runDashboard rs text ctry).totalProfitKPI =
      totalProfit (filteredDf (rs.map enrich) text ctry) ∧
    (runDashboard rs text ctry).dateRangeKPI =
      dateRange (filteredDf (rs.map enrich) text ctry) ∧
    (runDashboard rs text ctry).exportFile =
      exportCSV (filteredDf (rs.map enrich) text ctry) ∧
    (runDashboard rs text ctry).preview =
      (filteredDf (rs.map enrich) text ctry).take 20 ∧
    (runDashboard rs text ctry).salesOverTimeView =
      salesOverTime (filteredDf (rs.map enrich) text ctry) ∧
    (runDashboard rs text ctry).monthlySalesView =
      monthlySales (filteredDf (rs.map enrich) text ctry) ∧
    (runDashboard rs text ctry).clvView =
      topCustomers (filteredDf (rs.map enrich) text ctry) ∧
    (runDashboard rs text ctry).orderDistView =
      orderDist (filteredDf (rs.map enrich) text ctry) :=
  ⟨rfl, rfl, rfl, rfl, rfl, rfl, rfl, rfl, rfl, rfl, rfl, rfl, rfl, rfl, rfl,
   rfl, rfl⟩

/-- C5: on the empty record set every scalar aggregate (total sales, total
profit, net-loss customer count) is exactly 0, every "Top N" view is the
empty list, and the date range is the defined undefined value `none` — no
step errors. -/
theorem C5_empty_aggregates :
    totalSales [] = 0 ∧ totalProfit [] = 0 ∧ numLossCustomers [] = 0 ∧
    topSellingProducts [] = [] ∧ topProfitableProducts [] = [] ∧
    topCountries [] = [] ∧ topCustomers [] = [] ∧ dateRange [] = none :=
  ⟨rfl, rfl, rfl, rfl, rfl, rfl, rfl, rfl⟩

/-- C6: the net-loss customer count equals the number of distinct (non-null)
customer ids whose summed profit over all their records is strictly
negative; a customer summing to exactly 0 or more is not counted. -/
theorem C6_net_loss_count (rs : List ERecord) :
    numLossCustomers rs =
      ((rs.filterMap (fun r => r.customerid)).dedup.filter
        (fun c => decide (((rs.filter (fun r => decide (r.customerid = some c))).map
          (fun r => r.profit)).sum < 0))).length := by
  unfold numLossCustomers groupSum sortAsc
  rw [List.countP_map, (List.perm_insertionSort _ _).countP_eq,
    List.countP_eq_length_filter]
  rfl

/-- C7, counterexample: a record with a null customer id and strictly
negative profit is dropped by `groupby` (`dropna=True`), so it forms no
group at all and the net-loss count stays 0, while the claim's null-as-own-
group reading would count it. -/
theorem C7_counterexample :
    groupSum [enrich rNullC] (fun r => r.customerid) (fun r => r.profit) = [] ∧
    numLossCustomers [enrich rNullC] = 0 ∧
    (enrich rNullC).customerid = none ∧ (enrich rNullC).profit < 0 := by
  refine ⟨rfl, rfl, rfl, ?_⟩
  norm_num [enrich, rNullC]

/-- C7, amended: in every grouped view the records with a null grouping key
are dropped, not kept as their own group: removing the null-keyed records
first changes no grouped view. -/
theorem C7_null_keys_amended (rs : List ERecord) :
    numLossCustomers rs =
      numLossCustomers (rs.filter (fun r => r.customerid.isSome)) ∧
    topCustomers rs = topCustomers (rs.filter (fun r => r.customerid.isSome)) ∧
    topSellingProducts rs =
      topSellingProducts (rs.filter (fun r => r.description.isSome)) ∧
    topProfitableProducts rs =
      topProfitableProducts (rs.filter (fun r => r.description.isSome)) := by
  refine ⟨?_, ?_, ?_, ?_⟩
  · unfold numLossCustomers
    rw [groupSum_dropNull (fun r : ERecord => r.customerid)]
  · unfold topCustomers
    rw [groupSum_dropNull (fun r : ERecord => r.customerid)]
  · unfold topSellingProducts
    rw [groupSum_dropNull (fun r : ERecord => r.description)]
  · unfold topProfitableProducts
    rw [groupSum_dropNull (fun r : ERecord => r.description)]

/-- C8: when the input path does not exist the app shows the
file-not-found message and executes none of the pipeline (the outcome is
independent of the body); when the body fails after a successful existence
check the exception is rendered as a single error message; when it succeeds
the dashboard is rendered — in no case does the run escape these outcomes. -/
theorem C8_top_level_errors :
    (∀ p : Except String DashboardOutput,
      runApp false p = AppOutcome.fileNotFoundMsg) ∧
    (∀ e : String, runApp true (Except.error e) = AppOutcome.processErrorMsg e) ∧
    (∀ o : DashboardOutput, runApp true (Except.ok o) = AppOutcome.rendered o) :=
  ⟨fun _ => rfl, fun _ => rfl, fun _ => rfl⟩

/-- C9, counterexample: re-loading the exported `filtered_sales.csv`
through the Loader does not reproduce the filtered set.  The export has
nine columns but the Loader supplies eight names, so `read_csv` turns the
first column into the index and every field shifts by one; the reloaded
row differs from the in-memory one already in its `invoice` cell. -/
theorem C9_counterexample :
    loadTable (exportCSV [enrich r9x]) ≠ [toRaw (enrich r9x)] := by decide

/-- C9, amended: the round trip holds once the derived `profit` column is
dropped before the export: loading a header-plus-rows table of the eight
loaded columns reproduces exactly the filtered set's row count and field
values. -/
theorem C9_round_trip_amended (fs : List ERecord) :
    loadTable (header8 :: fs.map rowCells8) = fs.map toRaw ∧
    (loadTable (header8 :: fs.map rowCells8)).length = fs.length := by
  have key : loadTable (header8 :: fs.map rowCells8) = fs.map toRaw := by
    unfold loadTable
    rw [List.drop_one, List.tail_cons, List.filterMap_map]
    have hfun : (loadRow ∘ rowCells8) = (fun r : ERecord => some (toRaw r)) :=
      funext (fun r => loadRow_rowCells8 r)
    rw [hfun]
    exact congrFun (List.filterMap_eq_map toRaw) fs
  exact ⟨key, by rw [key, List.length_map]⟩

/-- C10: for every filter state the export starts with the header row of
the nine column names (the eight loaded columns plus `profit`), every row
has exactly nine cells (no index column), and the export of the empty
filtered set is the header-only file. -/
theorem C10_export_shape (fs : List ERecord) :
    (exportCSV fs).head? = some header9 ∧
    header9.length = 9 ∧ Cell.s "profit" ∈ header9 ∧
    ((exportCSV fs).all (fun row => row.length == 9)) = true ∧
    exportCSV [] = [header9] := by
  refine ⟨rfl, rfl, by decide, ?_, rfl⟩
  rw [List.all_eq_true]
  intro row hrow
  rcases List.mem_cons.mp hrow with h | h
  · subst h; rfl
  · obtain ⟨r, _, rfl⟩ := List.mem_map.mp h
    rfl
